import Mathlib

/-!
Verification of the live database connection-pool manager in `src/server.js`.

The module-level mutable state of the server (`dbConfig`, `pool`,
`isPoolHealthy`, lines 15-25) is embedded as an explicit `ServerState`
record.  The behaviour of the external mysql2 driver (whether
`pool.getConnection()` succeeds for a given configuration, whether
`pool.end()` resolves or rejects) is abstracted in a `World` record, and
every driver call an operation performs is recorded in an event trace so
that ordering claims can be stated.

Pool handles are numbered by creation order and carry the configuration
they were created from.  Following mysql2 (`Pool.end` sets the internal
closed flag before doing any asynchronous work), a pool counts as closed
as soon as `end()` is invoked on it, whether or not the returned promise
later rejects.
-/

deriving instance DecidableEq for Except

namespace PoolManager

/-- Connection configuration: the shape of the module-level `dbConfig`
object (server.js lines 15-21). -/
structure DbConfig where
  host : String
  port : Nat
  user : String
  password : String
  database : String
deriving Repr, DecidableEq

/-- A pool handle created by `mysql.createPool`: identified by creation
order and bound to the configuration it was created from. -/
structure Pool where
  id : Nat
  config : DbConfig
deriving Repr, DecidableEq

/-- A partial configuration, as accepted by `updateDatabaseConfig`:
the spread `{...dbConfig, ...newConfig}` at line 78 lets absent fields
fall back to the current configuration. -/
structure ConfigPatch where
  host : Option String := none
  port : Option Nat := none
  user : Option String := none
  password : Option String := none
  database : Option String := none
deriving Repr, DecidableEq

/-- The spread-merge `{...dbConfig, ...newConfig}` (line 78): fields
present in the patch override, absent fields keep their prior values. -/
def mergeConfig (c : DbConfig) (p : ConfigPatch) : DbConfig :=
  { host := p.host.getD c.host
    port := p.port.getD c.port
    user := p.user.getD c.user
    password := p.password.getD c.password
    database := p.database.getD c.database }

/-- Observable driver calls made while an operation runs. -/
inductive Event
  | acquireAttempt (id : Nat)
  | acquireOk (id : Nat)
  | released (id : Nat)
  | acquireFailed (id : Nat) (msg : String)
  | createdPool (id : Nat) (cfg : DbConfig)
  | endCalled (id : Nat)
  | closeFailed (id : Nat) (msg : String)
  | swapped (id : Nat)
deriving Repr, DecidableEq

/-- Environment behaviour of the mysql2 driver: whether `getConnection`
succeeds for a pool created from a given configuration, whether
`pool.end()` resolves or rejects for a given pool id, and whether a
`pool.execute` query succeeds for a given pool id. -/
structure World where
  connect : DbConfig → Except String Unit
  closeResult : Nat → Except String Unit
  query : Nat → Except String Unit

/-- The module-level mutable state of server.js: `dbConfig` (line 15),
`pool` (line 24) and `isPoolHealthy` (line 25).  `nextId` numbers pool
creations and `closed` records the pools on which `end()` has been
called. -/
structure ServerState where
  dbConfig : DbConfig
  pool : Option Pool
  isPoolHealthy : Bool
  nextId : Nat
  closed : List Nat
deriving Repr, DecidableEq

/-- Lines 28-39: `isPoolReady` returns false at once when no pool
exists, otherwise acquires and releases one connection, converting any
acquisition error into a false return. -/
def isPoolReady (w : World) (s : ServerState) : Bool × List Event :=
  match s.pool with
  | none => (false, [])
  | some p =>
    match w.connect p.config with
    | .ok _ => (true, [.acquireAttempt p.id, .acquireOk p.id, .released p.id])
    | .error msg => (false, [.acquireAttempt p.id, .acquireFailed p.id msg])

/-- The object returned by `updateDatabaseConfig` (lines 110 and 120). -/
structure UpdateResult where
  success : Bool
  message : String
deriving Repr, DecidableEq

/-- Success message literal of line 110. -/
def updateSuccessMessage : String := "Database configuration updated successfully"

/-- Lines 63-122: the reconfiguration routine, sequential semantics.
In order: the health check of line 70 whose boolean is only logged; the
capture of the old pool (line 75); the merge into `dbConfig` (line 78,
before any probe); candidate-pool creation (lines 81-86); the candidate
probe (lines 89-91); on success, closing the old pool with the close
error swallowed (lines 94-103) and then the swap (lines 106-107); on a
probe failure, the catch block (lines 111-121) which marks the state
unhealthy when a pool exists and returns the failure result. -/
def updateDatabaseConfig (w : World) (s : ServerState) (newConfig : ConfigPatch) :
    ServerState × UpdateResult × List Event :=
  let ev0 : List Event := if s.pool.isSome then (isPoolReady w s).2 else []
  let oldPool := s.pool
  let merged := mergeConfig s.dbConfig newConfig
  let newPool : Pool := ⟨s.nextId, merged⟩
  let s1 : ServerState := { s with dbConfig := merged, nextId := s.nextId + 1 }
  let ev1 := ev0 ++ [.createdPool newPool.id merged]
  match w.connect merged with
  | .error msg =>
    let s2 := if s1.pool.isSome then { s1 with isPoolHealthy := false } else s1
    (s2, ⟨false, msg⟩, ev1 ++ [.acquireAttempt newPool.id, .acquireFailed newPool.id msg])
  | .ok _ =>
    let ev2 := ev1 ++ [.acquireAttempt newPool.id, .acquireOk newPool.id, .released newPool.id]
    let closeStep : ServerState × List Event :=
      match oldPool with
      | none => (s1, ev2)
      | some p =>
        match w.closeResult p.id with
        | .ok _ => ({ s1 with closed := s1.closed ++ [p.id] }, ev2 ++ [.endCalled p.id])
        | .error m =>
          ({ s1 with closed := s1.closed ++ [p.id] },
            ev2 ++ [.endCalled p.id, .closeFailed p.id m])
    let s4 : ServerState :=
      { closeStep.1 with pool := some newPool, isPoolHealthy := true }
    (s4, ⟨true, updateSuccessMessage⟩, closeStep.2 ++ [.swapped newPool.id])

/-! ### Route handlers -/

/-- Outcome of a profile-route handler: either the SQL query was
executed against a pool (row shaping abstracted away), or an error
status and message were sent. -/
inductive RouteOutcome
  | queryExecuted (poolId : Nat)
  | errorResponse (status : Nat) (error : String)
deriving Repr, DecidableEq

/-- GET /api/profiles (lines 130-183): guarded by `isPoolReady`; when
the guard fails the handler returns 500 with the dedicated
"Database connection not ready" body; otherwise the query runs and any
query error is caught into the generic 500 body. -/
def getProfilesRoute (w : World) (s : ServerState) : RouteOutcome × List Event :=
  let ready := isPoolReady w s
  if ready.1 then
    match s.pool with
    | none => (.errorResponse 500 "Failed to fetch profiles", ready.2)
    | some p =>
      match w.query p.id with
      | .ok _ => (.queryExecuted p.id, ready.2)
      | .error _ => (.errorResponse 500 "Failed to fetch profiles", ready.2)
  else
    (.errorResponse 500 "Database connection not ready", ready.2)

/-- GET /api/profiles/:id (lines 186-229): no readiness guard.  When no
pool exists, `pool.execute` raises a TypeError which the catch of line
225 converts into the generic 500 body; a query error lands in the same
catch. -/
def getProfileByIdRoute (w : World) (s : ServerState) : RouteOutcome :=
  match s.pool with
  | none => .errorResponse 500 "Failed to fetch profile"
  | some p =>
    match w.query p.id with
    | .ok _ => .queryExecuted p.id
    | .error _ => .errorResponse 500 "Failed to fetch profile"

/-- Request body of PUT /api/database/config (line 741): each field may
be absent. -/
structure ConfigBody where
  host : Option String := none
  port : Option String := none
  username : Option String := none
  password : Option String := none
  database : Option String := none
deriving Repr, DecidableEq

/-- JavaScript truthiness of an optional string body field: an absent
field and the empty string are falsy. -/
def truthy : Option String → Bool
  | none => false
  | some s => !(s == "")

/-- Model of JavaScript `parseInt` on the canonical decimal strings this
route receives (line 754). -/
def parseIntJs (s : String) : Nat := s.toNat?.getD 0

/-- Response sent by PUT /api/database/config. -/
structure ConfigPutResponse where
  status : Nat
  success : Bool
  message : String
deriving Repr, DecidableEq

/-- Error message literal of line 747. -/
def missingFieldsMessage : String :=
  "Missing required fields: host, port, username, database"

/-- The validation test of line 744: `!host || !port || !username ||
!database` negated. -/
def requiredFieldsPresent (b : ConfigBody) : Bool :=
  truthy b.host && truthy b.port && truthy b.username && truthy b.database

/-- The object passed to `updateDatabaseConfig` at lines 752-758,
built from a body whose required fields passed validation:
`{host, port: parseInt(port), user: username, password: password || '',
database}`. -/
def bodyPatch (b : ConfigBody) : ConfigPatch :=
  { host := b.host
    port := b.port.map parseIntJs
    user := b.username
    password := some (b.password.getD "")
    database := b.database }

/-- PUT /api/database/config (lines 739-772): validate the required
fields, rejecting with 400 before anything else runs; otherwise run
`updateDatabaseConfig` and answer 200 on success, 500 on failure, with
the result object as the body. -/
def putDatabaseConfigRoute (w : World) (s : ServerState) (b : ConfigBody) :
    ServerState × ConfigPutResponse × List Event :=
  if requiredFieldsPresent b then
    let out := updateDatabaseConfig w s (bodyPatch b)
    (out.1, ⟨if out.2.1.success then 200 else 500, out.2.1.success, out.2.1.message⟩, out.2.2)
  else
    (s, ⟨400, false, missingFieldsMessage⟩, [])

/-- Redacted configuration view sent by GET /api/database/config
(lines 778-784): host, port, username and database only. -/
structure RedactedConfig where
  host : String
  port : Nat
  username : String
  database : String
deriving Repr, DecidableEq

/-- GET /api/database/config (lines 775-786): a success flag and the
redacted view of the current configuration; the password is deliberately
omitted. -/
def getDatabaseConfigRoute (s : ServerState) : Bool × RedactedConfig :=
  (true, ⟨s.dbConfig.host, s.dbConfig.port, s.dbConfig.user, s.dbConfig.database⟩)

/-! ### Interleaving semantics of `updateDatabaseConfig`

The function suspends at its three awaits (lines 70, 89 and 97); the
code between two suspension points runs atomically on the
single-threaded event loop.  `stepUpdate` executes one such atomic
segment; `runTwo` interleaves two concurrent calls under an explicit
schedule. -/

/-- Program counter of one in-flight `updateDatabaseConfig` call.  Each
non-final value names the segment that runs when the call is next
resumed. -/
inductive UPc
  | healthCheck
  | buildCandidate
  | probeResult
  | closeDone
  | finished (success : Bool) (message : String)
deriving Repr, DecidableEq

/-- Local variables of one in-flight `updateDatabaseConfig` call:
`oldPool` (line 75) and the candidate pool (line 81). -/
structure UThread where
  pc : UPc
  patch : ConfigPatch
  oldPool : Option Pool := none
  candidate : Option Pool := none
deriving Repr, DecidableEq

/-- A freshly invoked `updateDatabaseConfig(patch)` call. -/
def mkThread (p : ConfigPatch) : UThread := { pc := .healthCheck, patch := p }

/-- One atomic segment of `updateDatabaseConfig`.
Entry: when a pool exists, line 70 suspends inside `isPoolReady` (the
boolean is only logged, so the global state is untouched); with no pool
the condition short-circuits and execution continues synchronously
through the capture, merge and candidate creation up to the probe await
of line 89.  `buildCandidate` is that same stretch after the health
check resumes.  `probeResult` resumes at line 89 with the probe outcome:
a rejection runs the catch block; on success, `oldPool.end()` (line 97)
marks the old pool closed immediately and suspends, or, with no old
pool, the swap of lines 106-107 runs at once.  `closeDone` resumes after
`end()` (its error swallowed) and performs the swap. -/
def stepUpdate (w : World) (g : ServerState) (t : UThread) : ServerState × UThread :=
  match t.pc with
  | .healthCheck =>
    match g.pool with
    | some _ => (g, { t with pc := .buildCandidate })
    | none =>
      let merged := mergeConfig g.dbConfig t.patch
      let cand : Pool := ⟨g.nextId, merged⟩
      ({ g with dbConfig := merged, nextId := g.nextId + 1 },
        { t with pc := .probeResult, oldPool := none, candidate := some cand })
  | .buildCandidate =>
    let merged := mergeConfig g.dbConfig t.patch
    let cand : Pool := ⟨g.nextId, merged⟩
    ({ g with dbConfig := merged, nextId := g.nextId + 1 },
      { t with pc := .probeResult, oldPool := g.pool, candidate := some cand })
  | .probeResult =>
    match t.candidate with
    | none => (g, { t with pc := .finished false "no candidate" })
    | some cand =>
      match w.connect cand.config with
      | .error msg =>
        ((if g.pool.isSome then { g with isPoolHealthy := false } else g),
          { t with pc := .finished false msg })
      | .ok _ =>
        match t.oldPool with
        | some p =>
          ({ g with closed := g.closed ++ [p.id] }, { t with pc := .closeDone })
        | none =>
          ({ g with pool := some cand, isPoolHealthy := true },
            { t with pc := .finished true updateSuccessMessage })
  | .closeDone =>
    match t.candidate with
    | none => (g, { t with pc := .finished false "no candidate" })
    | some cand =>
      ({ g with pool := some cand, isPoolHealthy := true },
        { t with pc := .finished true updateSuccessMessage })
  | .finished _ _ => (g, t)

/-- Run one `updateDatabaseConfig` call for a given number of atomic
segments. -/
def runOne (w : World) : Nat → ServerState × UThread → ServerState × UThread
  | 0, st => st
  | n + 1, (g, t) => runOne w n (stepUpdate w g t)

/-- Interleave two concurrent `updateDatabaseConfig` calls under a
schedule: `true` steps the first call, `false` the second. -/
def runTwo (w : World) :
    List Bool → ServerState × UThread × UThread → ServerState × UThread × UThread
  | [], st => st
  | b :: rest, (g, t1, t2) =>
    if b then
      let r := stepUpdate w g t1
      runTwo w rest (r.1, r.2, t2)
    else
      let r := stepUpdate w g t2
      runTwo w rest (r.1, t1, r.2)

/-- A call is in its Validating or Swapping phase: its candidate pool
has been constructed and the cut-over has not completed. -/
def inValidatingOrSwapping (t : UThread) : Bool :=
  match t.pc with
  | .probeResult => t.candidate.isSome
  | .closeDone => true
  | _ => false

/-! ### Trace helpers -/

/-- Index of the first occurrence of an event in a trace. -/
def idxOfEvent : List Event → Event → Option Nat
  | [], _ => none
  | e :: tr, x => if e = x then some 0 else (idxOfEvent tr x).map (fun n => n + 1)

/-- Whether the first event occurs in the trace strictly before the
second. -/
def occursBefore (tr : List Event) (e1 e2 : Event) : Bool :=
  match idxOfEvent tr e1, idxOfEvent tr e2 with
  | some a, some b => decide (a < b)
  | _, _ => false

/-- Whether any `end()` call occurs in a trace. -/
def hasEndCall (tr : List Event) : Bool :=
  tr.any fun e => match e with | .endCalled _ => true | _ => false

/-- Number of pool constructions recorded in a trace. -/
def constructionCount (tr : List Event) : Nat :=
  (tr.filter fun e => match e with | .createdPool _ _ => true | _ => false).length

/-- Number of connection-acquisition attempts recorded in a trace. -/
def acquireAttempts (tr : List Event) : Nat :=
  (tr.filter fun e => match e with | .acquireAttempt _ => true | _ => false).length

/-- Whether the pool that was active in `before` (if any) has been
closed in `after`. -/
def oldPoolClosedB (before after : ServerState) : Bool :=
  match before.pool with
  | none => true
  | some p => decide (p.id ∈ after.closed)

/-- Specification-side description of the health probe (spec section
4.2): false when no pool exists, otherwise true exactly when a
connection can be acquired; acquisition errors map to false. -/
def probeSpec (w : World) (s : ServerState) : Bool :=
  match s.pool with
  | none => false
  | some p => match w.connect p.config with | .ok _ => true | .error _ => false

/-! ### Concrete fixtures -/

/-- The default configuration of lines 15-21. -/
def cfgA : DbConfig :=
  { host := "localhost", port := 3306, user := "root", password := "", database := "talent" }

/-- A reconfiguration patch pointing at a different host. -/
def patchB : ConfigPatch := { host := some "db.example.com", password := some "secret" }

/-- A second reconfiguration patch. -/
def patchC : ConfigPatch := { host := some "replica.example.com" }

/-- A server that finished startup on `cfgA`: pool number 0 active and
healthy. -/
def stateA : ServerState :=
  { dbConfig := cfgA, pool := some ⟨0, cfgA⟩, isPoolHealthy := true, nextId := 1, closed := [] }

/-- A server on which no pool has ever initialized. -/
def stateEmpty : ServerState :=
  { dbConfig := cfgA, pool := none, isPoolHealthy := false, nextId := 0, closed := [] }

/-- A driver environment in which only `cfgA` is reachable. -/
def wFailB : World :=
  { connect := fun c => if c = cfgA then .ok () else .error "connect ECONNREFUSED"
    closeResult := fun _ => .ok ()
    query := fun _ => .ok () }

/-- A driver environment in which every configuration is reachable and
every operation succeeds. -/
def wOkAll : World :=
  { connect := fun _ => .ok ()
    closeResult := fun _ => .ok ()
    query := fun _ => .ok () }

/-! ### Supporting lemmas -/

/-- Every run of `updateDatabaseConfig` constructs exactly one pool. -/
theorem constructionCount_update (w : World) (s : ServerState) (patch : ConfigPatch) :
    constructionCount (updateDatabaseConfig w s patch).2.2 = 1 := by
  cases hp : s.pool with
  | none =>
    cases hm : w.connect (mergeConfig s.dbConfig patch) <;>
      simp [updateDatabaseConfig, isPoolReady, constructionCount, hp, hm, List.filter_append]
  | some p =>
    cases hm : w.connect (mergeConfig s.dbConfig patch) <;>
      cases hold : w.connect p.config <;>
        cases hclose : w.closeResult p.id <;>
          simp [updateDatabaseConfig, isPoolReady, constructionCount, hp, hm, hold, hclose,
            List.filter_append]

/-! ### Claims -/

/-- C1 counterexample: with the old pool healthy and the merged
candidate unreachable, `updateDatabaseConfig` returns a structured
failure, yet it does NOT leave the active handle and the active config
both as they were: `dbConfig` keeps the merged candidate values. -/
theorem c1_failed_probe_mutates_config :
    (updateDatabaseConfig wFailB stateA patchB).2.1.success = false ∧
    ¬ ((updateDatabaseConfig wFailB stateA patchB).1.pool = stateA.pool ∧
       (updateDatabaseConfig wFailB stateA patchB).1.dbConfig = stateA.dbConfig) := by
  decide

/-- C1 amended: when the candidate probe fails, `updateDatabaseConfig`
leaves the active handle unchanged and returns a structured failure
carrying the error message, but the active config is not rolled back:
it retains the merged candidate values. -/
theorem c1_failed_probe_keeps_pool_not_config (w : World) (s : ServerState)
    (patch : ConfigPatch) (msg : String)
    (h : w.connect (mergeConfig s.dbConfig patch) = .error msg) :
    (updateDatabaseConfig w s patch).1.pool = s.pool ∧
    (updateDatabaseConfig w s patch).1.dbConfig = mergeConfig s.dbConfig patch ∧
    (updateDatabaseConfig w s patch).2.1 = ⟨false, msg⟩ := by
  cases hp : s.pool <;> simp [updateDatabaseConfig, h, hp]

/-- C1 amended, witnessed at the concrete unreachable-host run. -/
theorem c1_failed_probe_keeps_pool_not_config_witness :
    (updateDatabaseConfig wFailB stateA patchB).1.pool = stateA.pool ∧
    (updateDatabaseConfig wFailB stateA patchB).1.dbConfig = mergeConfig stateA.dbConfig patchB ∧
    (updateDatabaseConfig wFailB stateA patchB).2.1 = ⟨false, "connect ECONNREFUSED"⟩ :=
  c1_failed_probe_keeps_pool_not_config wFailB stateA patchB "connect ECONNREFUSED" (by decide)

/-- C2: when the candidate probe succeeds, `updateDatabaseConfig`
installs the candidate pool built from the patch merged over the prior
config, records that merged config, sets the healthy flag, closes the
old handle when there was one, and returns the success result. -/
theorem c2_successful_swap (w : World) (s : ServerState) (patch : ConfigPatch)
    (h : w.connect (mergeConfig s.dbConfig patch) = .ok ()) :
    (updateDatabaseConfig w s patch).1.pool =
      some ⟨s.nextId, mergeConfig s.dbConfig patch⟩ ∧
    (updateDatabaseConfig w s patch).1.dbConfig = mergeConfig s.dbConfig patch ∧
    (updateDatabaseConfig w s patch).1.isPoolHealthy = true ∧
    oldPoolClosedB s (updateDatabaseConfig w s patch).1 = true ∧
    (updateDatabaseConfig w s patch).2.1 = ⟨true, updateSuccessMessage⟩ := by
  cases hp : s.pool with
  | none => simp [updateDatabaseConfig, oldPoolClosedB, h, hp]
  | some p =>
    cases hold : w.connect p.config <;>
      cases hclose : w.closeResult p.id <;>
        simp [updateDatabaseConfig, oldPoolClosedB, isPoolReady, h, hp, hold, hclose]

/-- C2, witnessed at a concrete reachable-host run from `stateA`. -/
theorem c2_successful_swap_witness :
    (updateDatabaseConfig wOkAll stateA patchB).1.pool =
      some ⟨stateA.nextId, mergeConfig stateA.dbConfig patchB⟩ ∧
    (updateDatabaseConfig wOkAll stateA patchB).1.dbConfig = mergeConfig stateA.dbConfig patchB ∧
    (updateDatabaseConfig wOkAll stateA patchB).1.isPoolHealthy = true ∧
    oldPoolClosedB stateA (updateDatabaseConfig wOkAll stateA patchB).1 = true ∧
    (updateDatabaseConfig wOkAll stateA patchB).2.1 = ⟨true, updateSuccessMessage⟩ :=
  c2_successful_swap wOkAll stateA patchB (by decide)

/-- C3 counterexample: the old pool probes healthy, the candidate probe
fails, and the healthy flag afterwards is false — not the old handle's
probe result. -/
theorem c3_failed_probe_forces_unhealthy_example :
    (updateDatabaseConfig wFailB stateA patchB).2.1.success = false ∧
    (isPoolReady wFailB stateA).1 = true ∧
    ¬ ((updateDatabaseConfig wFailB stateA patchB).1.isPoolHealthy =
        (isPoolReady wFailB stateA).1) := by
  decide

/-- C3 amended: whenever the candidate probe fails and a pool exists,
the catch block sets the healthy flag to false unconditionally — the
candidate's failure by itself forces unhealthy, regardless of the old
handle's probe result. -/
theorem c3_failed_probe_sets_unhealthy (w : World) (s : ServerState)
    (patch : ConfigPatch) (msg : String)
    (h : w.connect (mergeConfig s.dbConfig patch) = .error msg)
    (hp : s.pool.isSome = true) :
    (updateDatabaseConfig w s patch).1.isPoolHealthy = false := by
  cases hq : s.pool with
  | none => rw [hq] at hp; simp at hp
  | some p => simp [updateDatabaseConfig, h, hq]

/-- C3 amended, witnessed at the concrete unreachable-host run. -/
theorem c3_failed_probe_sets_unhealthy_witness :
    (updateDatabaseConfig wFailB stateA patchB).1.isPoolHealthy = false :=
  c3_failed_probe_sets_unhealthy wFailB stateA patchB "connect ECONNREFUSED"
    (by decide) (by decide)

/-- C4 counterexample: in a concrete successful reconfiguration the
`end()` call on the old pool (trace index 7) precedes the cut-over
(trace index 8), so the swap does not happen before the close; and
after the third atomic segment the pool holder still references pool 0
although pool 0 is already closed. -/
theorem c4_close_precedes_swap_example :
    (updateDatabaseConfig wOkAll stateA patchB).2.1.success = true ∧
    idxOfEvent (updateDatabaseConfig wOkAll stateA patchB).2.2 (.endCalled 0) = some 7 ∧
    idxOfEvent (updateDatabaseConfig wOkAll stateA patchB).2.2 (.swapped 1) = some 8 ∧
    ¬ (occursBefore (updateDatabaseConfig wOkAll stateA patchB).2.2
        (.swapped 1) (.endCalled 0) = true) ∧
    (runOne wOkAll 3 (stateA, mkThread patchB)).1.pool = some ⟨0, cfgA⟩ ∧
    (runOne wOkAll 3 (stateA, mkThread patchB)).1.closed = [0] := by
  decide

/-- C4 amended: in every successful reconfiguration with a pre-existing
pool, the `end()` call on the old handle occurs strictly before the
cut-over: Draining precedes Swapping, and during the close the pool
holder still hands out the old (already closed) handle. -/
theorem c4_old_pool_closed_before_cutover (w : World) (s : ServerState)
    (patch : ConfigPatch) (p : Pool)
    (h : w.connect (mergeConfig s.dbConfig patch) = .ok ())
    (hp : s.pool = some p) :
    occursBefore (updateDatabaseConfig w s patch).2.2
      (.endCalled p.id) (.swapped s.nextId) = true := by
  cases hold : w.connect p.config <;>
    cases hclose : w.closeResult p.id <;>
      simp [updateDatabaseConfig, isPoolReady, occursBefore, idxOfEvent, h, hp, hold, hclose]

/-- C4 amended, witnessed at the concrete successful run. -/
theorem c4_old_pool_closed_before_cutover_witness :
    occursBefore (updateDatabaseConfig wOkAll stateA patchB).2.2
      (.endCalled (Pool.mk 0 cfgA).id) (.swapped stateA.nextId) = true :=
  c4_old_pool_closed_before_cutover wOkAll stateA patchB ⟨0, cfgA⟩ (by decide) (by decide)

/-- C5 counterexample: in a concrete failed reconfiguration the
candidate pool (id 1) is not closed before the failure result is
returned — no `end()` call occurs at all and the closed set stays
empty. -/
theorem c5_candidate_not_closed_example :
    (updateDatabaseConfig wFailB stateA patchB).2.1.success = false ∧
    hasEndCall (updateDatabaseConfig wFailB stateA patchB).2.2 = false ∧
    ¬ (1 ∈ (updateDatabaseConfig wFailB stateA patchB).1.closed) := by
  decide

/-- C5 amended: when the candidate probe fails, no handle is closed at
all before the failure result is returned: the closed set is unchanged
and the trace contains no `end()` call — the candidate is dropped
without releasing its connections. -/
theorem c5_failed_probe_leaks_candidate (w : World) (s : ServerState)
    (patch : ConfigPatch) (msg : String)
    (h : w.connect (mergeConfig s.dbConfig patch) = .error msg) :
    (updateDatabaseConfig w s patch).1.closed = s.closed ∧
    hasEndCall (updateDatabaseConfig w s patch).2.2 = false ∧
    (updateDatabaseConfig w s patch).2.1.success = false := by
  cases hp : s.pool with
  | none => simp [updateDatabaseConfig, isPoolReady, hasEndCall, h, hp]
  | some p =>
    cases hold : w.connect p.config <;>
      simp [updateDatabaseConfig, isPoolReady, hasEndCall, h, hp, hold]

/-- C5 amended, witnessed at the concrete unreachable-host run. -/
theorem c5_failed_probe_leaks_candidate_witness :
    (updateDatabaseConfig wFailB stateA patchB).1.closed = stateA.closed ∧
    hasEndCall (updateDatabaseConfig wFailB stateA patchB).2.2 = false ∧
    (updateDatabaseConfig wFailB stateA patchB).2.1.success = false :=
  c5_failed_probe_leaks_candidate wFailB stateA patchB "connect ECONNREFUSED" (by decide)

/-- C6 counterexample: with no pool ever initialized, GET /api/profiles
answers the distinguishable unavailable error while GET
/api/profiles/:id answers the generic fetch failure — the handlers do
not share a consistent, distinguishable unavailable response. -/
theorem c6_inconsistent_unavailable_example :
    (getProfilesRoute wOkAll stateEmpty).1 =
      .errorResponse 500 "Database connection not ready" ∧
    getProfileByIdRoute wOkAll stateEmpty =
      .errorResponse 500 "Failed to fetch profile" ∧
    ¬ (getProfileByIdRoute wOkAll stateEmpty =
        .errorResponse 500 "Database connection not ready") := by
  decide

/-- C6 amended: with no pool, GET /api/profiles fails fast with the
distinguishable unavailable error, while GET /api/profiles/:id
dereferences the missing handle and its catch-all converts the fault
into the generic 500 body — no unhandled fault escapes, but the
response is not the distinguishable unavailable signal. -/
theorem c6_no_pool_responses (w : World) (s : ServerState) (h : s.pool = none) :
    (getProfilesRoute w s).1 = .errorResponse 500 "Database connection not ready" ∧
    getProfileByIdRoute w s = .errorResponse 500 "Failed to fetch profile" := by
  simp [getProfilesRoute, getProfileByIdRoute, isPoolReady, h]

/-- C6 amended, witnessed at the uninitialized server state. -/
theorem c6_no_pool_responses_witness :
    (getProfilesRoute wOkAll stateEmpty).1 =
      .errorResponse 500 "Database connection not ready" ∧
    getProfileByIdRoute wOkAll stateEmpty =
      .errorResponse 500 "Failed to fetch profile" :=
  c6_no_pool_responses wOkAll stateEmpty (by decide)

/-- C7: PUT /api/database/config rejects any body with a missing or
empty required field with status 400, success false and the missing
fields message, performing no driver call at all (empty trace, zero
pool constructions, state untouched); with all four required fields
present it runs the reconfiguration protocol — exactly one pool
construction — and answers 200 on success, 500 on failure, with the
result object. -/
theorem c7_put_config_validation (w : World) (s : ServerState) (b : ConfigBody) :
    ((putDatabaseConfigRoute w s b).2.1.status =
      if requiredFieldsPresent b
      then (if (updateDatabaseConfig w s (bodyPatch b)).2.1.success then 200 else 500)
      else 400) ∧
    ((putDatabaseConfigRoute w s b).2.1.success =
      (requiredFieldsPresent b && (updateDatabaseConfig w s (bodyPatch b)).2.1.success)) ∧
    ((putDatabaseConfigRoute w s b).2.1.message =
      if requiredFieldsPresent b
      then (updateDatabaseConfig w s (bodyPatch b)).2.1.message
      else missingFieldsMessage) ∧
    ((putDatabaseConfigRoute w s b).2.2 =
      if requiredFieldsPresent b then (updateDatabaseConfig w s (bodyPatch b)).2.2 else []) ∧
    (constructionCount (putDatabaseConfigRoute w s b).2.2 =
      if requiredFieldsPresent b then 1 else 0) ∧
    ((putDatabaseConfigRoute w s b).1 =
      if requiredFieldsPresent b then (updateDatabaseConfig w s (bodyPatch b)).1 else s) := by
  cases hreq : requiredFieldsPresent b with
  | false => simp [putDatabaseConfigRoute, constructionCount, hreq]
  | true => simp [putDatabaseConfigRoute, hreq, constructionCount_update]

/-- C8: the GET /api/database/config view depends only on host, port,
username and database: two states whose configs differ only in the
password produce identical responses. -/
theorem c8_config_view_password_independent (s1 s2 : ServerState)
    (hh : s1.dbConfig.host = s2.dbConfig.host)
    (hp : s1.dbConfig.port = s2.dbConfig.port)
    (hu : s1.dbConfig.user = s2.dbConfig.user)
    (hd : s1.dbConfig.database = s2.dbConfig.database) :
    getDatabaseConfigRoute s1 = getDatabaseConfigRoute s2 := by
  simp [getDatabaseConfigRoute, hh, hp, hu, hd]

/-- C8, witnessed on two states differing only in the password. -/
theorem c8_config_view_password_independent_witness :
    getDatabaseConfigRoute { stateA with dbConfig := { cfgA with password := "hunter2" } } =
      getDatabaseConfigRoute stateA :=
  c8_config_view_password_independent
    { stateA with dbConfig := { cfgA with password := "hunter2" } } stateA
    (by decide) (by decide) (by decide) (by decide)

/-- C9 counterexample: under the schedule that suspends each of two
concurrent reconfiguration calls at its candidate probe, both calls are
in the Validating phase at the same time, each holding a constructed
candidate pool — the second was neither queued nor rejected, and its
candidate was even built over the first call's half-applied config. -/
theorem c9_concurrent_validating_example :
    inValidatingOrSwapping
      (runTwo wOkAll [true, true, false, false]
        (stateA, mkThread patchB, mkThread patchC)).2.1 = true ∧
    inValidatingOrSwapping
      (runTwo wOkAll [true, true, false, false]
        (stateA, mkThread patchB, mkThread patchC)).2.2 = true ∧
    (runTwo wOkAll [true, true, false, false]
      (stateA, mkThread patchB, mkThread patchC)).2.1.candidate =
      some ⟨1, mergeConfig cfgA patchB⟩ ∧
    (runTwo wOkAll [true, true, false, false]
      (stateA, mkThread patchB, mkThread patchC)).2.2.candidate =
      some ⟨2, mergeConfig (mergeConfig cfgA patchB) patchC⟩ := by
  decide

/-- C9 amended: `updateDatabaseConfig` has no mutual exclusion: from
any state with an active pool, interleaving two calls so that each
suspends at its candidate probe puts both in the Validating phase
simultaneously, each with its own constructed candidate — the second
even merges its patch over the first call's already-mutated config. -/
theorem c9_no_mutual_exclusion (w : World) (s : ServerState) (p : Pool)
    (p1 p2 : ConfigPatch) (hp : s.pool = some p) :
    inValidatingOrSwapping
      (runTwo w [true, true, false, false] (s, mkThread p1, mkThread p2)).2.1 = true ∧
    inValidatingOrSwapping
      (runTwo w [true, true, false, false] (s, mkThread p1, mkThread p2)).2.2 = true ∧
    (runTwo w [true, true, false, false] (s, mkThread p1, mkThread p2)).2.1.candidate =
      some ⟨s.nextId, mergeConfig s.dbConfig p1⟩ ∧
    (runTwo w [true, true, false, false] (s, mkThread p1, mkThread p2)).2.2.candidate =
      some ⟨s.nextId + 1, mergeConfig (mergeConfig s.dbConfig p1) p2⟩ := by
  simp [runTwo, stepUpdate, mkThread, inValidatingOrSwapping, hp]

/-- C9 amended, witnessed at the concrete two-request interleaving. -/
theorem c9_no_mutual_exclusion_witness :
    inValidatingOrSwapping
      (runTwo wOkAll [true, true, false, false]
        (stateA, mkThread patchB, mkThread patchC)).2.1 = true ∧
    inValidatingOrSwapping
      (runTwo wOkAll [true, true, false, false]
        (stateA, mkThread patchB, mkThread patchC)).2.2 = true ∧
    (runTwo wOkAll [true, true, false, false]
      (stateA, mkThread patchB, mkThread patchC)).2.1.candidate =
      some ⟨stateA.nextId, mergeConfig stateA.dbConfig patchB⟩ ∧
    (runTwo wOkAll [true, true, false, false]
      (stateA, mkThread patchB, mkThread patchC)).2.2.candidate =
      some ⟨stateA.nextId + 1,
        mergeConfig (mergeConfig stateA.dbConfig patchB) patchC⟩ :=
  c9_no_mutual_exclusion wOkAll stateA ⟨0, cfgA⟩ patchB patchC (by decide)

/-- C10: `isPoolReady` is total at its interface: its boolean agrees
with the specification-side probe (false when no pool exists, false on
any acquisition error, true otherwise — never an exception), and it
attempts no connection acquisition when the handle is null, exactly one
otherwise. -/
theorem c10_isPoolReady_total (w : World) (s : ServerState) :
    (isPoolReady w s).1 = probeSpec w s ∧
    acquireAttempts (isPoolReady w s).2 = (if s.pool.isSome then 1 else 0) := by
  cases hp : s.pool with
  | none => simp [isPoolReady, probeSpec, acquireAttempts, hp]
  | some p =>
    cases hc : w.connect p.config <;>
      simp [isPoolReady, probeSpec, acquireAttempts, hp, hc]

end PoolManager
